import Mathlib

/-!
Shallow embedding of the Asset-Assistant media-asset sorter
(src/asset-assistant.py).  Pure string processing (the filename regexes,
Python `str` methods) is translated into executable Lean functions on
`List Char`; filesystem effects (copy, rename, mkdir, move-to-failed,
delete-from-staging, backup) are modelled as explicit operation lists;
`sys.exit(1)` and uncaught Python exceptions are distinct result
constructors.  Directory listings are snapshots passed in an environment,
matching the single-threaded sequential execution of the script.
Character classes are modelled over the ASCII range (the regexes in the
source only ever need ASCII); the regex dot is treated as matching any
character (filenames with embedded newlines are out of modelled scope).
-/

/-- ASCII lower-casing of one character, as Python str.lower on ASCII input. -/
def lowerChar (c : Char) : Char :=
  if 'A' ≤ c ∧ c ≤ 'Z' then Char.ofNat (c.toNat + 32) else c

/-- Python str.lower (ASCII range; other characters unchanged). -/
def lowerStr (s : String) : String := ⟨s.data.map lowerChar⟩

/-- Python whitespace class (the ASCII part of the regex class backslash-s
and of str.strip with no argument). -/
def pySpace (c : Char) : Bool :=
  c == ' ' || c == '\t' || c == '\n' || c == '\r' || c == '\x0b' || c == '\x0c'

/-- Python str.strip with no argument: drop whitespace at both ends. -/
def pyStrip (s : String) : String :=
  ⟨((s.data.dropWhile (fun c => pySpace c)).reverse.dropWhile (fun c => pySpace c)).reverse⟩

/-- Decimal digit test (regex backslash-d over ASCII). -/
def isDigitCh (c : Char) : Bool := '0' ≤ c && c ≤ '9'

/-- Does the pattern occur at the head of the character list? -/
def listHasPfx : List Char → List Char → Bool
  | [], _ => true
  | _ :: _, [] => false
  | p :: ps, c :: cs => p == c && listHasPfx ps cs

/-- Does the pattern occur anywhere in the character list? -/
def listSubstr (pat : List Char) : List Char → Bool
  | [] => listHasPfx pat []
  | c :: cs => listHasPfx pat (c :: cs) || listSubstr pat cs

/-- Python `pat in s` substring test. -/
def substr (pat s : String) : Bool := listSubstr pat.data s.data

/-- Python s.startswith(pre). -/
def strStarts (s pre : String) : Bool := listHasPfx pre.data s.data

/-- Python str.endswith (case-sensitive). -/
def strEnds (pat s : String) : Bool := listHasPfx pat.data.reverse s.data.reverse

/-- Python s.split(c)[0]: the characters before the first occurrence of c. -/
def splitFirst (c : Char) (s : String) : String :=
  ⟨s.data.takeWhile (fun x => x != c)⟩

/-- Numeric value of a digit string, as Python int(). -/
def digitsVal (l : List Char) : Nat :=
  l.foldl (fun acc c => acc * 10 + (c.toNat - '0'.toNat)) 0

/-- Python int() on a decimal string. -/
def strToNat (s : String) : Nat := digitsVal s.data

/-- Python str.zfill(2): left-pad with zeros to length two. -/
def zfill2 (s : String) : String :=
  if s.data.length < 2 then ⟨List.replicate (2 - s.data.length) '0' ++ s.data⟩ else s

/-- Absolute difference of two naturals, as Python abs(a - b) on ints. -/
def pyAbsDiff (a b : Nat) : Nat := max a b - min a b

/-- Index of the last '.' in a character list, if any. -/
def lastDotIdx (l : List Char) : Option Nat :=
  match l.reverse.findIdx? (fun c => c == '.') with
  | some i => some (l.length - 1 - i)
  | none => none

/-- Python os.path.splitext(f)[1]: the extension including the dot; leading
dots of the name never start an extension. -/
def extOf (f : String) : String :=
  let l := f.data
  let lead := (l.takeWhile (fun c => c == '.')).length
  match lastDotIdx l with
  | some j => if lead ≤ j then ⟨l.drop j⟩ else ""
  | none => ""

/-- Python os.path.splitext(f)[0]. -/
def stemOf (f : String) : String :=
  ⟨f.data.take (f.data.length - (extOf f).data.length)⟩

/-- Python os.path.join for two components. -/
def pjoin (a b : String) : String := a ++ "/" ++ b

/-- Maximal nonempty run of leading digits, with the remainder. -/
def takeDigits (l : List Char) : Option (List Char × List Char) :=
  let ds := l.takeWhile isDigitCh
  if ds.isEmpty then none else some (ds, l.drop ds.length)

/-- Tail of the season regex after its anchor alternative has been consumed:
optional whitespace, then "season" (input is pre-lowered), then at least
one whitespace, then the captured digit group. -/
def seasonTail (l : List Char) : Option (List Char) :=
  let l1 := l.dropWhile (fun c => pySpace c)
  if listHasPfx "season".data l1 then
    match l1.drop 6 with
    | c :: rest =>
      if pySpace c then
        match takeDigits (rest.dropWhile (fun x => pySpace x)) with
        | some (ds, _) => some ds
        | none => none
      else none
    | [] => none
  else none

/-- Leftmost-match scan for the season pattern; the Bool flag is true only
at the very start of the string (the caret alternative of the anchor). -/
def seasonScan : List Char → Bool → Option (List Char)
  | [], _ => none
  | c :: rest, atStart =>
    match (if atStart then seasonTail (c :: rest) else none) with
    | some ds => some ds
    | none =>
      match (if pySpace c || c == '-' then seasonTail rest else none) with
      | some ds => some ds
      | none => seasonScan rest false

/-- re.search of the season pattern, returning the captured digits of the
first match (the pattern is case-insensitive, so we scan the lowered
string; digits are unaffected by lowering). -/
def seasonSearch (f : String) : Option String :=
  match seasonScan (lowerStr f).data true with
  | some ds => some ⟨ds⟩
  | none => none

/-- Episode pattern matched at the current position (input pre-lowered):
's', digits, an optional single space-or-dot, 'e', digits. -/
def epAt : List Char → Option (List Char × List Char)
  | [] => none
  | c :: rest =>
    if c == 's' then
      match takeDigits rest with
      | some (d1, r1) =>
        match r1 with
        | x :: r2 =>
          if pySpace x || x == '.' then
            match r2 with
            | y :: r3 =>
              if y == 'e' then
                match takeDigits r3 with
                | some (d2, _) => some (d1, d2)
                | none => none
              else none
            | [] => none
          else if x == 'e' then
            match takeDigits r2 with
            | some (d2, _) => some (d1, d2)
            | none => none
          else none
        | [] => none
      | none => none
    else none

/-- Leftmost occurrence of the episode pattern. -/
def epScanFirst : List Char → Option (List Char × List Char)
  | [] => none
  | c :: rest =>
    match epAt (c :: rest) with
    | some r => some r
    | none => epScanFirst rest

/-- re.search of the episode pattern: captured season and episode digits of
the first match. -/
def episodeSearch (f : String) : Option (String × String) :=
  match epScanFirst (lowerStr f).data with
  | some (a, b) => some (⟨a⟩, ⟨b⟩)
  | none => none

/-- Rightmost occurrence of the episode pattern (the greedy leading dot-star
of the re-extraction pattern in the plex episode branch selects the last
occurrence). -/
def epScanLast : List Char → Option (List Char × List Char)
  | [] => none
  | c :: rest =>
    match epScanLast rest with
    | some r => some r
    | none => epAt (c :: rest)

/-- re.match of the dot-star-prefixed episode pattern. -/
def episodeLast (f : String) : Option (String × String) :=
  match epScanLast (lowerStr f).data with
  | some (a, b) => some (⟨a⟩, ⟨b⟩)
  | none => none

/-- re.search of the case-insensitive literal "Specials". -/
def specialsFound (f : String) : Bool := substr "specials" (lowerStr f)

/-- Title-year pattern at one position: the already-consumed prefix (held
reversed) must be nonempty, then one whitespace, an opening parenthesis,
four digits, a closing parenthesis. -/
def tyAt (pre : List Char) (l : List Char) : Option (String × String) :=
  match l with
  | c :: '(' :: d1 :: d2 :: d3 :: d4 :: ')' :: _ =>
    if !pre.isEmpty && pySpace c && isDigitCh d1 && isDigitCh d2 && isDigitCh d3 && isDigitCh d4 then
      some (⟨pre.reverse⟩, ⟨[d1, d2, d3, d4]⟩)
    else none
  | _ => none

/-- Walk the string keeping the last position where the title-year pattern
matches (the greedy dot-plus group of the pattern captures everything up
to the last year token). -/
def tyGo (pre : List Char) (l : List Char) (acc : Option (String × String)) :
    Option (String × String) :=
  match l with
  | [] => acc
  | c :: rest =>
    let acc' :=
      match tyAt pre (c :: rest) with
      | some r => some r
      | none => acc
    tyGo (c :: pre) rest acc'

/-- The title-year pattern (raw group one and the year digits); used both by
re.search on filenames and re.match on directory names, which coincide
for this pattern. -/
def titleYear (f : String) : Option (String × String) :=
  tyGo [] f.data none

/-- First parenthesized four-digit year anywhere in the string. -/
def fpYearGo : List Char → Option Nat
  | '(' :: d1 :: d2 :: d3 :: d4 :: ')' :: rest =>
    if isDigitCh d1 && isDigitCh d2 && isDigitCh d3 && isDigitCh d4 then
      some (digitsVal [d1, d2, d3, d4])
    else fpYearGo (d1 :: d2 :: d3 :: d4 :: ')' :: rest)
  | _ :: rest => fpYearGo rest
  | [] => none

/-- re.search of a parenthesized four-digit year, as a number. -/
def firstParenYear (s : String) : Option Nat := fpYearGo s.data

/-- Terminator test of the plex episode title pattern: optional whitespace,
then a hyphen or an 's' followed by a digit (input pre-lowered). -/
def plexSep : List Char → Bool
  | [] => false
  | c :: rest =>
    if c == '-' then true
    else if c == 's' && (match rest with | d :: _ => isDigitCh d | [] => false) then true
    else if pySpace c then plexSep rest
    else false

/-- Lazy shortest nonempty title capture before a plex separator. -/
def plexShowScan (pre : List Char) : List Char → Option (List Char)
  | [] => none
  | c :: rest =>
    if plexSep rest then some (c :: pre).reverse
    else plexShowScan (c :: pre) rest

/-- re.match of the plex episode title pattern, capture lowered (every use
in the source lowers it before comparing). -/
def plexShowName (f : String) : Option String :=
  match plexShowScan [] (lowerStr f).data with
  | some cs => some ⟨cs⟩
  | none => none

/-- Terminator test of the kometa episode title pattern: optional
whitespace, then an opening parenthesis, an 's' followed by a digit, or
the end of the string. -/
def kometaSep : List Char → Bool
  | [] => true
  | c :: rest =>
    if c == '(' then true
    else if c == 's' && (match rest with | d :: _ => isDigitCh d | [] => false) then true
    else if pySpace c then kometaSep rest
    else false

/-- Lazy shortest nonempty title capture before a kometa separator. -/
def kometaShowScan (pre : List Char) : List Char → Option (List Char)
  | [] => none
  | c :: rest =>
    if kometaSep rest then some (c :: pre).reverse
    else kometaShowScan (c :: pre) rest

/-- re.match of the kometa episode title pattern, capture lowered. -/
def kometaShowName (f : String) : Option String :=
  match kometaShowScan [] (lowerStr f).data with
  | some cs => some ⟨cs⟩
  | none => none

/-- One pass of Python str.replace("collection", "") over a pre-lowered
character list: leftmost, non-overlapping. -/
def replColl : List Char → List Char
  | 'c' :: 'o' :: 'l' :: 'l' :: 'e' :: 'c' :: 't' :: 'i' :: 'o' :: 'n' :: rest => replColl rest
  | c :: rest => c :: replColl rest
  | [] => []

/-- The source's normalization of an asset filename for collection
matching: stem before the first dot, lowered, "collection" removed,
stripped. -/
def collNormFile (f : String) : String :=
  pyStrip ⟨replColl (lowerStr (splitFirst '.' f)).data⟩

/-- The source's normalization of a collections directory name: lowered,
"collection" removed, stripped. -/
def collNormDir (d : String) : String :=
  pyStrip ⟨replColl (lowerStr d).data⟩

/-- Snapshot environment of one run: configuration values plus the
directory listings; os.path.exists / os.listdir on season subfolders and
the image dimension read are supplied as snapshot functions. -/
structure Env where
  service : Option String
  plexSpecials : Option Bool
  processDir : String
  failedDir : String
  moviesDir : String
  showsDir : String
  collectionsDir : String
  moviesListing : List String
  showsListing : List String
  collectionsListing : List String
  seasonExists : String → String → Bool
  seasonFiles : String → String → List String
  imgSize : String → Nat × Nat

/-- Filesystem operations the script performs, in order of execution. -/
inductive FsOp where
  | copy (src dst : String)
  | rename (src dst : String)
  | mkdir (p : String)
  | mvFailed (filename : String)
  | remove (filename : String)
  | backup (filename : String)
deriving DecidableEq, Repr

/-- Result of one copy_and_rename call: a normal Python return value, a
sys.exit, or an uncaught exception propagating to the caller. -/
inductive CrResult where
  | ret (category : String)
  | fatalExit (code : Nat)
  | crash (msg : String)
deriving DecidableEq, Repr

/-- Result of processing one file (or a file list) in the main loop. -/
inductive StepResult where
  | ok
  | fatal (code : Nat)
  | crashed (msg : String)
deriving DecidableEq, Repr

/-- Python truthiness of the service configuration value (None or the
empty string are falsy). -/
def serviceTruthy : Option String → Bool
  | none => false
  | some s => !s.data.isEmpty

/-- Python truthiness of an optional string variable. -/
def truthyS : Option String → Bool
  | none => false
  | some s => !s.data.isEmpty

/-- Python `if show_name:` applied to the stripped title-year capture:
drops the capture when the stripped title is empty. -/
def truthyTitle : Option (String × String) → Option (String × String)
  | some (t, y) =>
    let n := pyStrip t
    if n.data.isEmpty then none else some (n, pyStrip y)
  | none => none

/-- US-region test used by every matcher (case-sensitive substring). -/
def isUS (d : String) : Bool := substr "(US)" d || substr "(USA)" d

/-- Non-US region tags skipped by the partial-match fallback. -/
def regionTagged (d : String) : Bool :=
  substr "(AU)" d || substr "(UK)" d || substr "(CA)" d

/-- Step one of the episode matcher in categories: the directories whose
title-year parse succeeds and whose lowered title starts with the lowered
query title, in listing order. -/
def matchingDirs (name : String) (listing : List String) : List String :=
  listing.filter (fun d =>
    match titleYear d with
    | some (dt, _) => strStarts (lowerStr (pyStrip dt)) (lowerStr name)
    | none => false)

/-- The closest-year fold of the episode matcher: strict improvement on
the running best difference, initial sentinel 9999, entries without a
parenthesized year skipped. -/
def closestYearGo (qy : Nat) (bestDiff : Nat) (best : Option String) :
    List String → Option String
  | [] => best
  | d :: rest =>
    match firstParenYear d with
    | some dy =>
      let diff := pyAbsDiff qy dy
      if diff < bestDiff then closestYearGo qy diff (some d) rest
      else closestYearGo qy bestDiff best rest
    | none => closestYearGo qy bestDiff best rest

/-- Steps two of the episode matcher: only with more than one candidate,
prefer the exact lowered title-year match, then the first US-tagged
candidate. -/
def episodeBest1 (name year : String) (M : List String) : Option String :=
  if 1 < M.length then
    match M.find? (fun d => lowerStr d == lowerStr (name ++ " (" ++ year ++ ")")) with
    | some m => some m
    | none => M.find? isUS
  else none

/-- Step three of the episode matcher: fall back to the closest-year fold
when steps one and two produced nothing. -/
def episodeBest2 (name year : String) (M : List String) : Option String :=
  match episodeBest1 name year M with
  | some m => some m
  | none => closestYearGo (strToNat year) 9999 none M

/-- The full episode matcher of categories: candidate collection, exact /
US preference, closest year, then the two partial-substring fallbacks
over the raw listing (first skipping AU/UK/CA-tagged names). -/
def episodeDirMatch (name year : String) (listing : List String) : Option String :=
  match episodeBest2 name year (matchingDirs name listing) with
  | some m => some m
  | none =>
    match listing.find? (fun d =>
        substr (lowerStr name) (lowerStr d) && !regionTagged d) with
    | some m => some m
    | none => listing.find? (fun d => substr (lowerStr name) (lowerStr d))

/-- Outcome of the season branch of categories (triple of category,
season number, episode number). -/
def seasonOutcome (sm : Option String) (ty : Option (String × String)) (env : Env) :
    Option String × Option String × Option String :=
  if serviceTruthy env.service then
    match truthyTitle ty with
    | some (n, y) =>
      if env.showsListing.contains (n ++ " (" ++ y ++ ")") then (some "season", sm, none)
      else (none, sm, none)
    | none => (some "season", sm, none)
  else (some "skip", none, none)

/-- Outcome of the specials branch of categories: category season with the
season number left unset. -/
def specialsOutcome (ty : Option (String × String)) (env : Env) :
    Option String × Option String × Option String :=
  if serviceTruthy env.service then
    match truthyTitle ty with
    | some (n, y) =>
      if env.showsListing.contains (n ++ " (" ++ y ++ ")") then (some "season", none, none)
      else (none, none, none)
    | none => (some "season", none, none)
  else (some "skip", none, none)

/-- Outcome of the episode branch of categories. -/
def episodeOutcome (em : Option (String × String)) (ty : Option (String × String))
    (env : Env) : Option String × Option String × Option String :=
  if serviceTruthy env.service then
    let sn := em.map (fun p => p.1)
    let en := em.map (fun p => p.2)
    match truthyTitle ty with
    | some (n, y) =>
      match episodeDirMatch n y env.showsListing with
      | some _ => (some "episode", sn, en)
      | none => (none, sn, en)
    | none => (some "episode", sn, en)
  else (some "skip", none, none)

/-- Outcome of the final else of categories: collection equality match
(category decided by the service), then substring matches against the
movies and shows listings. -/
def fallbackOutcome (f : String) (env : Env) :
    Option String × Option String × Option String :=
  match env.collectionsListing.find? (fun d => collNormFile f == collNormDir d) with
  | some _ =>
    (if env.service == some "kometa" || env.service == some "kodi" then some "collection"
     else some "not_supported", none, none)
  | none =>
    match env.moviesListing.find? (fun d =>
        substr (lowerStr (splitFirst '.' f)) (lowerStr d)) with
    | some _ => (some "movie", none, none)
    | none =>
      match env.showsListing.find? (fun d =>
          substr (lowerStr (splitFirst '.' f)) (lowerStr d)) with
      | some _ => (some "show", none, none)
      | none => (none, none, none)

/-- The categories function of the source: the if/elif chain over the four
filename patterns, first match selecting the branch. -/
def categories (f : String) (env : Env) :
    Option String × Option String × Option String :=
  if (seasonSearch f).isSome then seasonOutcome (seasonSearch f) (titleYear f) env
  else if specialsFound f then specialsOutcome (titleYear f) env
  else if (episodeSearch f).isSome then episodeOutcome (episodeSearch f) (titleYear f) env
  else fallbackOutcome f env

/-- Movie/show placement of copy_and_rename: match the directory (exact
title-year, then substring; or for filenames without a year, exact
pre-parenthesis stem then substring) and copy the file in under its
original name.  The source's rename step for this branch is truncated
(the function body ends in a comment), so no rename is emitted and the
unmatched case falls through to a plain return of the category. -/
def movieShowPlace (filename category : String) (env : Env) : CrResult × List FsOp :=
  let listing := if category == "movie" then env.moviesListing else env.showsListing
  let dirPath := if category == "movie" then env.moviesDir else env.showsDir
  let best :=
    match titleYear filename with
    | some (t, y) =>
      let fn := lowerStr (pyStrip t)
      match listing.find? (fun d =>
          match titleYear d with
          | some (dt, dy) => (lowerStr (pyStrip dt) == fn) && (dy == y)
          | none => false) with
      | some b => some b
      | none => listing.find? (fun d => substr fn (lowerStr d))
    | none =>
      let fns := lowerStr (splitFirst '.' filename)
      match listing.find? (fun d => fns == pyStrip (splitFirst '(' (lowerStr d))) with
      | some b => some b
      | none => listing.find? (fun d => substr fns (lowerStr d))
  match best with
  | some b =>
    (.ret category, [.copy (pjoin env.processDir filename) (pjoin (pjoin dirPath b) filename)])
  | none => (.ret category, [])

/-- Collection placement: substring match of the normalized stem, copy,
read the image, rename to poster/background by the portrait test; when no
directory matches the loop falls through to a plain return. -/
def collectionPlace (filename : String) (env : Env) : CrResult × List FsOp :=
  match env.collectionsListing.find? (fun d => substr (collNormFile filename) (lowerStr d)) with
  | some d =>
    let dest := pjoin (pjoin env.collectionsDir d) filename
    let wh := env.imgSize dest
    let newName := (if wh.2 > wh.1 then "poster" else "background") ++ extOf filename
    (.ret "collection",
     [.copy (pjoin env.processDir filename) dest,
      .rename dest (pjoin (pjoin env.collectionsDir d) newName)])
  | none => (.ret "collection", [])

/-- Show-directory search shared by the kometa and plex season branches:
first directory whose pre-parenthesis prefix contains the filename's
pre-parenthesis prefix. -/
def seasonShowFind (filename : String) (listing : List String) : Option String :=
  listing.find? (fun d =>
    substr (lowerStr (pyStrip (splitFirst ')' filename)))
      (lowerStr (pyStrip (splitFirst ')' d))))

/-- Kometa season placement: copy then rename to SeasonNN (Season00 when
the season number is unset); an unmatched show directory falls through to
a plain return of the category with no filesystem operation. -/
def kometaSeasonPlace (filename : String) (sn? : Option String) (env : Env) :
    CrResult × List FsOp :=
  match seasonShowFind filename env.showsListing with
  | some d =>
    let dest := pjoin (pjoin env.showsDir d) filename
    let newName :=
      (if truthyS sn? then "Season" ++ zfill2 (sn?.getD "") else "Season00") ++ extOf filename
    (.ret "season",
     [.copy (pjoin env.processDir filename) dest,
      .rename dest (pjoin (pjoin env.showsDir d) newName)])
  | none => (.ret "season", [])

/-- Candidate directories of the kometa episode branch: mutual substring
test on the pre-parenthesis prefixes. -/
def kometaMatchingDirs (fsn : String) (listing : List String) : List String :=
  listing.filter (fun d =>
    let dsn := pyStrip (splitFirst '(' (lowerStr d))
    substr fsn dsn || substr dsn fsn)

/-- Kometa episode placement: extract the show title, collect candidates,
prefer a US-tagged candidate when there are several, copy then rename to
SNNENN; the rename dereferences the season/episode captures, which brings
an uncaught AttributeError after the copy when either is unset. -/
def kometaEpisodePlace (filename : String) (sn? en? : Option String) (env : Env) :
    CrResult × List FsOp :=
  match kometaShowName filename with
  | none => (.ret "failed", [.mvFailed filename])
  | some t =>
    let fsn := lowerStr (pyStrip t)
    match kometaMatchingDirs fsn env.showsListing with
    | [] => (.ret "failed", [.mvFailed filename])
    | m0 :: rest =>
      let best :=
        if rest.isEmpty then m0
        else
          match (m0 :: rest).find? isUS with
          | some u => u
          | none => m0
      let dest := pjoin (pjoin env.showsDir best) filename
      match sn?, en? with
      | some sn, some en =>
        let newName := "S" ++ zfill2 sn ++ "E" ++ zfill2 en ++ extOf filename
        (.ret "episode",
         [.copy (pjoin env.processDir filename) dest,
          .rename dest (pjoin (pjoin env.showsDir best) newName)])
      | _, _ =>
        (.crash "AttributeError: NoneType has no attribute zfill",
         [.copy (pjoin env.processDir filename) dest])

/-- Common tail of the plex season branch once the season directory name
is known: create the season folder when missing, copy, rename. -/
def plexSeasonFinish (filename dirName sdn newName : String) (env : Env) :
    CrResult × List FsOp :=
  let seasonPath := pjoin (pjoin env.showsDir dirName) sdn
  let mk : List FsOp := if env.seasonExists dirName sdn then [] else [.mkdir seasonPath]
  let dest := pjoin seasonPath filename
  (.ret "season",
   mk ++ [.copy (pjoin env.processDir filename) dest,
          .rename dest (pjoin seasonPath newName)])

/-- Specials path of the plex season branch: the season directory name is
assigned only under the case-sensitive substring test for "Specials", and
an unset plex_specials is a sys.exit(1); otherwise the later use of the
never-assigned name raises an uncaught UnboundLocalError. -/
def plexSeasonSpecials (filename dirName : String) (env : Env) : CrResult × List FsOp :=
  if substr "Specials" filename then
    match env.plexSpecials with
    | none => (.fatalExit 1, [])
    | some true =>
      plexSeasonFinish filename dirName "Specials" ("season-specials-poster" ++ extOf filename) env
    | some false =>
      plexSeasonFinish filename dirName "Season 00" ("season-specials-poster" ++ extOf filename) env
  else (.crash "UnboundLocalError: season_dir_name", [])

/-- Plex season placement. -/
def plexSeasonPlace (filename : String) (sn? : Option String) (env : Env) :
    CrResult × List FsOp :=
  match seasonShowFind filename env.showsListing with
  | some dirName =>
    match sn? with
    | some sn =>
      if sn.data.isEmpty then plexSeasonSpecials filename dirName env
      else
        plexSeasonFinish filename dirName ("Season " ++ zfill2 sn)
          ("Season" ++ zfill2 sn ++ extOf filename) env
    | none => plexSeasonSpecials filename dirName env
  | none => (.ret "failed", [.mvFailed filename])

/-- Show-title extraction of the plex episode branch, with the stem
fallback when the lazy pattern finds no separator. -/
def plexFileShowName (filename : String) : String :=
  match plexShowName filename with
  | some t => pyStrip t
  | none => splitFirst '.' filename

/-- Exact-title candidates of the plex episode branch. -/
def plexExactMatches (fsn : String) (listing : List String) : List String :=
  listing.filter (fun d => lowerStr fsn == pyStrip (splitFirst '(' (lowerStr d)))

/-- Partial candidates of the plex episode branch (exact matches are
collected separately and excluded here). -/
def plexPartialMatches (fsn : String) (listing : List String) : List String :=
  listing.filter (fun d =>
    !(lowerStr fsn == pyStrip (splitFirst '(' (lowerStr d))) && substr (lowerStr fsn) (lowerStr d))

/-- Show-directory selection of the plex episode branch: exact candidates
first with US preference inside the tier, then partial candidates with US
preference, else nothing. -/
def plexEpisodeShowMatch (filename : String) (listing : List String) : Option String :=
  let fsn := plexFileShowName filename
  let ex := plexExactMatches fsn listing
  let pa := plexPartialMatches fsn listing
  if !ex.isEmpty then
    match ex.find? isUS with
    | some m => some m
    | none => ex.head?
  else
    match pa.find? isUS with
    | some m => some m
    | none => pa.head?

/-- The matching companion video file of a plex episode card: first video
in the season directory whose re-extracted numbers equal the zero-padded
asset numbers (string comparison, as in the source), renamed to the video
stem with the asset's extension. -/
def findVideoName (files : List String) (sn en ext2 : String) : Option String :=
  match files.find? (fun v =>
      (strEnds ".mkv" v || strEnds ".mp4" v || strEnds ".avi" v) &&
      (match episodeLast v with
       | some (vs, ve) => sn == vs && en == ve
       | none => false)) with
  | some v => some (stemOf v ++ ext2)
  | none => none

/-- Tail of the plex episode branch once the season directory name is
known: the season folder must already exist (it is never created here),
then the companion video is required. -/
def plexEpisodeFinish (filename best sdn sn en : String) (env : Env) :
    CrResult × List FsOp :=
  if env.seasonExists best sdn then
    match findVideoName (env.seasonFiles best sdn) sn en (extOf filename) with
    | some newName =>
      let seasonPath := pjoin (pjoin env.showsDir best) sdn
      let dest := pjoin seasonPath filename
      (.ret "episode",
       [.copy (pjoin env.processDir filename) dest,
        .rename dest (pjoin seasonPath newName)])
    | none => (.ret "failed", [.mvFailed filename])
  else (.ret "failed", [.mvFailed filename])

/-- Plex episode placement: select the show directory, re-extract the
episode numbers, resolve the season directory name (season 00 requires
the plex_specials tri-state, whose unset value is a sys.exit(1)). -/
def plexEpisodePlace (filename : String) (env : Env) : CrResult × List FsOp :=
  match plexEpisodeShowMatch filename env.showsListing with
  | none => (.ret "failed", [.mvFailed filename])
  | some best =>
    match episodeLast filename with
    | none => (.ret "failed", [.mvFailed filename])
    | some (s, e) =>
      let sn := zfill2 s
      let en := zfill2 e
      if sn == "00" then
        match env.plexSpecials with
        | none => (.fatalExit 1, [])
        | some true => plexEpisodeFinish filename best "Specials" sn en env
        | some false => plexEpisodeFinish filename best "Season 00" sn en env
      else plexEpisodeFinish filename best ("Season " ++ zfill2 sn) sn en env

/-- The copy_and_rename dispatcher of the source: movie/show and
collection by category, then season/episode under the kometa and plex
conventions, any other configured service routing the file to the failed
area while still returning the category. -/
def copy_and_rename (filename category : String) (sn? en? : Option String) (env : Env) :
    CrResult × List FsOp :=
  if category == "movie" || category == "show" then
    movieShowPlace filename category env
  else if category == "collection" then
    collectionPlace filename env
  else if env.service == some "kometa" then
    if category == "season" then kometaSeasonPlace filename sn? env
    else if category == "episode" then kometaEpisodePlace filename sn? en? env
    else (.ret category, [])
  else if env.service == some "plex" then
    if category == "season" then plexSeasonPlace filename sn? env
    else if category == "episode" then plexEpisodePlace filename env
    else (.ret category, [])
  else (.ret category, [.mvFailed filename])

/-- The run tally of the script. -/
structure MovedCounts where
  movie : Nat
  tvshow : Nat
  season : Nat
  episode : Nat
  collection : Nat
  failed : Nat
deriving DecidableEq, Repr

/-- Failure modes of the underlying shutil.move. -/
inductive MvErr where
  | notFound
  | permission
  | other
deriving DecidableEq, Repr

/-- The move_to_failed helper: the failed tally is incremented first, then
the move is attempted and every exception is caught and logged, so the
function always returns normally to its caller. -/
def move_to_failed (filename : String) (counts : MovedCounts) (mv : Except MvErr Unit) :
    MovedCounts × Except MvErr Unit :=
  let c := { counts with failed := counts.failed + 1 }
  match mv with
  | .ok _ => (c, .ok ())
  | .error .notFound => (c, .ok ())
  | .error .permission => (c, .ok ())
  | .error .other => (c, .ok ())

/-- Categories whose files the main loop hands to copy_and_rename. -/
def validCat (c : Option String) : Bool :=
  c == some "movie" || c == some "show" || c == some "season" ||
  c == some "episode" || c == some "collection"

/-- The tail of the categories function: any result outside the five
placeable categories is routed to the failed area and the reason is
logged.  The not_supported log line interpolates service.capitalize(),
which raises an uncaught AttributeError when the service is None; the
move to failed has already happened by then.  The third component is the
uncaught exception, if any. -/
def categoriesRun (f : String) (env : Env) :
    (Option String × Option String × Option String) × List FsOp × Option String :=
  let r := categories f env
  if validCat r.1 then (r, [], none)
  else if r.1 == some "not_supported" && env.service == none then
    (r, [.mvFailed f], some "AttributeError: NoneType has no attribute capitalize")
  else (r, [.mvFailed f], none)

/-- One iteration of the main processing loop: classify, place, then
delete from staging (or move to backup) unless the placement reported
failure; sys.exit and uncaught exceptions propagate. -/
def processFile (f : String) (env : Env) (backupEnabled : Bool) :
    StepResult × List FsOp :=
  let r := categoriesRun f env
  match r.2.2 with
  | some msg => (.crashed msg, r.2.1)
  | none =>
    match r.1.1 with
    | some c =>
      if validCat (some c) then
        match copy_and_rename f c r.1.2.1 r.1.2.2 env with
        | (.ret v, ops1) =>
          if v == "failed" then (.ok, r.2.1 ++ ops1)
          else (.ok, r.2.1 ++ ops1 ++ [if backupEnabled then FsOp.backup f else FsOp.remove f])
        | (.fatalExit k, ops1) => (.fatal k, r.2.1 ++ ops1)
        | (.crash m, ops1) => (.crashed m, r.2.1 ++ ops1)
      else (.ok, r.2.1)
    | none => (.ok, r.2.1)

/-- The main processing loop over the staging snapshot: files are handled
in order and a sys.exit or uncaught exception stops the run at once. -/
def runFiles (env : Env) (backupEnabled : Bool) : List String → StepResult × List FsOp
  | [] => (.ok, [])
  | f :: rest =>
    match processFile f env backupEnabled with
    | (.ok, ops) =>
      let r := runFiles env backupEnabled rest
      (r.1, ops ++ r.2)
    | (.fatal k, ops) => (.fatal k, ops)
    | (.crashed m, ops) => (.crashed m, ops)

/-- A find? over a list where the predicate fails everywhere is none. -/
theorem find_none_aux {α : Type} (p : α → Bool) (l : List α)
    (h : ∀ x ∈ l, p x = false) : l.find? p = none := by
  induction l with
  | nil => rfl
  | cons a l ih =>
    have ha := h a (List.mem_cons_self a l)
    have ih' := ih (fun x hx => h x (List.mem_cons_of_mem _ hx))
    simp [List.find?, ha, ih']

/-- A find? over a list containing a witness of the predicate succeeds. -/
theorem find_some_aux {α : Type} (p : α → Bool) (l : List α) (a : α)
    (ha : a ∈ l) (hp : p a = true) : ∃ b, l.find? p = some b := by
  induction l with
  | nil => cases ha
  | cons x l ih =>
    cases hx : p x with
    | true => exact ⟨x, by simp [List.find?, hx]⟩
    | false =>
      rcases List.mem_cons.mp ha with h | h
      · rw [h, hx] at hp; cases hp
      · obtain ⟨b, hb⟩ := ih h
        exact ⟨b, by simp [List.find?, hx, hb]⟩

/-- Year distance of a candidate directory from the query year, with the
source's 9999 sentinel for directories without a parenthesized year. -/
def yDiff (qy : Nat) (d : String) : Nat :=
  match firstParenYear d with
  | some dy => pyAbsDiff qy dy
  | none => 9999

/-- One step of the closest-year fold, expressed through yDiff: skipping a
yearless entry coincides with the comparison failing, because the running
best difference never exceeds the sentinel. -/
theorem closestYearGo_cons (qy bd : Nat) (b : Option String) (d : String)
    (rest : List String) (hbd : bd ≤ 9999) :
    closestYearGo qy bd b (d :: rest) =
      if yDiff qy d < bd then closestYearGo qy (yDiff qy d) (some d) rest
      else closestYearGo qy bd b rest := by
  cases h : firstParenYear d with
  | none =>
    have hn : ¬ (9999 < bd) := by omega
    simp [closestYearGo, yDiff, h, hn]
  | some dy => simp [closestYearGo, yDiff, h]

/-- The closest-year fold returns its accumulator when no entry improves
on the running best difference. -/
theorem closestYearGo_none (qy : Nat) (L : List String) :
    ∀ (bd : Nat) (b : Option String), bd ≤ 9999 →
    (∀ d ∈ L, bd ≤ yDiff qy d) → closestYearGo qy bd b L = b := by
  induction L with
  | nil => intro bd b _ _; rfl
  | cons d rest ih =>
    intro bd b hbd h
    rw [closestYearGo_cons qy bd b d rest hbd]
    have hd := h d (List.mem_cons_self d rest)
    rw [if_neg (by omega)]
    exact ih bd b hbd (fun x hx => h x (List.mem_cons_of_mem _ hx))

/-- The closest-year fold selects the first entry attaining the minimal
year distance below the running bound: the result splits the list with
strictly larger (or out-of-bound) distances before it and no smaller
distance after it. -/
theorem closestYearGo_found (qy : Nat) (L : List String) :
    ∀ (bd : Nat) (b : Option String), bd ≤ 9999 →
    (∃ d ∈ L, yDiff qy d < bd) →
    ∃ L₁ m L₂, L = L₁ ++ m :: L₂ ∧ closestYearGo qy bd b L = some m ∧
      yDiff qy m < bd ∧
      (∀ d ∈ L₁, bd ≤ yDiff qy d ∨ yDiff qy m < yDiff qy d) ∧
      (∀ d ∈ L₂, yDiff qy m ≤ yDiff qy d) := by
  induction L with
  | nil => intro bd b _ h; simp at h
  | cons d rest ih =>
    intro bd b hbd hex
    rw [closestYearGo_cons qy bd b d rest hbd]
    by_cases hd : yDiff qy d < bd
    · rw [if_pos hd]
      by_cases hr : ∃ e ∈ rest, yDiff qy e < yDiff qy d
      · obtain ⟨L₁, m, L₂, hsplit, hres, hm, h1, h2⟩ := ih (yDiff qy d) (some d) (by omega) hr
        refine ⟨d :: L₁, m, L₂, by simp [hsplit], hres, by omega, ?_, h2⟩
        intro x hx
        rcases List.mem_cons.mp hx with h | h
        · right; rw [h]; omega
        · rcases h1 x h with h' | h'
          · right; omega
          · right; exact h'
      · push_neg at hr
        refine ⟨[], d, rest, rfl, ?_, hd, by simp, hr⟩
        exact closestYearGo_none qy rest (yDiff qy d) (some d) (by omega) hr
    · rw [if_neg hd]
      obtain ⟨e, he, hlt⟩ := hex
      have he' : e ∈ rest := by
        rcases List.mem_cons.mp he with h | h
        · rw [h] at hlt; exact absurd hlt hd
        · exact h
      obtain ⟨L₁, m, L₂, hsplit, hres, hm, h1, h2⟩ := ih bd b hbd ⟨e, he', hlt⟩
      refine ⟨d :: L₁, m, L₂, by simp [hsplit], hres, hm, ?_, h2⟩
      intro x hx
      rcases List.mem_cons.mp hx with h | h
      · left; rw [h]; omega
      · exact h1 x h

/-- Steps one and two of the episode matcher produce nothing when no
candidate is the exact lowered title-year and none is US-tagged. -/
theorem episodeBest1_none (name year : String) (M : List String)
    (hx : ∀ d ∈ M, (lowerStr d == lowerStr (name ++ " (" ++ year ++ ")")) = false)
    (hus : ∀ d ∈ M, isUS d = false) :
    episodeBest1 name year M = none := by
  unfold episodeBest1
  by_cases h : 1 < M.length
  · rw [if_pos h, find_none_aux _ M hx]
    exact find_none_aux _ M hus
  · rw [if_neg h]

/-- Base snapshot used by the concrete scenarios below. -/
def baseEnv : Env := {
  service := none, plexSpecials := none,
  processDir := "process", failedDir := "failed",
  moviesDir := "movies", showsDir := "shows", collectionsDir := "collections",
  moviesListing := [], showsListing := [], collectionsListing := [],
  seasonExists := fun _ _ => false, seasonFiles := fun _ _ => [],
  imgSize := fun _ => (0, 0) }

/-- C6 (amended): for a query carrying a year and candidate directories
none of which is the exact lowered title-year match nor US-tagged, and at
least one of which lies within the 9999 sentinel of the query year, the
episode matcher returns the candidate with the smallest absolute year
difference, ties resolved in favor of the first encountered in listing
order (every earlier candidate has a strictly larger difference). -/
theorem C6_thm (name year : String) (listing : List String)
    (hx : ∀ d ∈ matchingDirs name listing,
      (lowerStr d == lowerStr (name ++ " (" ++ year ++ ")")) = false)
    (hus : ∀ d ∈ matchingDirs name listing, isUS d = false)
    (hlt : ∃ d ∈ matchingDirs name listing, yDiff (strToNat year) d < 9999) :
    ∃ L₁ m L₂, matchingDirs name listing = L₁ ++ m :: L₂ ∧
      episodeDirMatch name year listing = some m ∧
      (∀ d ∈ matchingDirs name listing,
        yDiff (strToNat year) m ≤ yDiff (strToNat year) d) ∧
      (∀ d ∈ L₁, yDiff (strToNat year) m < yDiff (strToNat year) d) := by
  obtain ⟨L₁, m, L₂, hsplit, hres, hm, h1, h2⟩ :=
    closestYearGo_found (strToNat year) (matchingDirs name listing) 9999 none le_rfl hlt
  have hb1 := episodeBest1_none name year (matchingDirs name listing) hx hus
  have hb2 : episodeBest2 name year (matchingDirs name listing) = some m := by
    unfold episodeBest2
    rw [hb1]
    exact hres
  refine ⟨L₁, m, L₂, hsplit, ?_, ?_, ?_⟩
  · unfold episodeDirMatch
    rw [hb2]
  · intro d hd
    rw [hsplit] at hd
    rcases List.mem_append.mp hd with h | h
    · rcases h1 d h with h' | h'
      · omega
      · omega
    · rcases List.mem_cons.mp h with h' | h'
      · rw [h']
      · exact h2 d h'
  · intro d hd
    rcases h1 d hd with h' | h'
    · omega
    · exact h'

/-- C6 counterexample: at the extreme where every candidate's year differs
from the query year by exactly the sentinel 9999, the closest-year step
selects nothing and the partial-match fallback (which deprioritizes
UK-tagged names) decides instead: on the listing below the tie is NOT
resolved in favor of the first candidate. -/
theorem C6_cex :
    episodeDirMatch "Show" "9999" ["Show (0000) (UK)", "Show (0000)"] = some "Show (0000)" ∧
    matchingDirs "Show" ["Show (0000) (UK)", "Show (0000)"] =
      ["Show (0000) (UK)", "Show (0000)"] ∧
    yDiff (strToNat "9999") "Show (0000) (UK)" = yDiff (strToNat "9999") "Show (0000)" ∧
    some "Show (0000)" ≠ some "Show (0000) (UK)" := by decide

/-- C6 witness: the spec's own example, query year 2020 against the
listing Show (2019), Show (2021), selects Show (2019). -/
theorem C6_witness :
    episodeDirMatch "Show" "2020" ["Show (2019)", "Show (2021)"] = some "Show (2019)" ∧
    (∃ L₁ m L₂, matchingDirs "Show" ["Show (2019)", "Show (2021)"] = L₁ ++ m :: L₂ ∧
      episodeDirMatch "Show" "2020" ["Show (2019)", "Show (2021)"] = some m ∧
      (∀ d ∈ matchingDirs "Show" ["Show (2019)", "Show (2021)"],
        yDiff (strToNat "2020") m ≤ yDiff (strToNat "2020") d) ∧
      (∀ d ∈ L₁, yDiff (strToNat "2020") m < yDiff (strToNat "2020") d)) :=
  ⟨by decide, C6_thm "Show" "2020" ["Show (2019)", "Show (2021)"]
    (by decide) (by decide) (by decide)⟩

/-- C5 (amended): for the episode query title Show with no year, whenever
the exact-title candidates of the plex episode matcher contain a
US/USA-tagged entry, the matcher returns the FIRST such entry in listing
order; in particular the two-entry listing of the spec's example returns
Show (US). -/
theorem C5_thm (listing : List String) (m : String)
    (hm : (plexExactMatches "show" listing).find? isUS = some m) :
    plexEpisodeShowMatch "Show S01E01.jpg" listing = some m := by
  have hf : plexFileShowName "Show S01E01.jpg" = "show" := by decide
  cases hex : plexExactMatches "show" listing with
  | nil => rw [hex] at hm; cases hm
  | cons a l =>
    rw [hex] at hm
    simp [plexEpisodeShowMatch, hf, hex, hm]

/-- C5 counterexample: a listing containing both Show (UK) and Show (US)
on which the matcher does NOT return Show (US): the first US-tagged
candidate in listing order is Show (USA), and it wins. -/
theorem C5_cex :
    ("Show (UK)" ∈ (["Show (USA)", "Show (UK)", "Show (US)"] : List String)) ∧
    ("Show (US)" ∈ (["Show (USA)", "Show (UK)", "Show (US)"] : List String)) ∧
    plexEpisodeShowMatch "Show S01E01.jpg" ["Show (USA)", "Show (UK)", "Show (US)"] =
      some "Show (USA)" ∧
    some "Show (USA)" ≠ some "Show (US)" := by decide

/-- C5 witness: the spec's example listing. -/
theorem C5_witness :
    plexEpisodeShowMatch "Show S01E01.jpg" ["Show (UK)", "Show (US)"] = some "Show (US)" :=
  C5_thm ["Show (UK)", "Show (US)"] "Show (US)" (by decide)

/-- C4 (amended): a filename matching none of the season, specials and
episode patterns, whose collection-normalized stem equals the normalized
form of some collections directory, is classified collection under the
kometa and kodi conventions and not_supported under every other
CONFIGURED service value (any string, the empty string included), the
classification tail then returning normally; when no service is
configured at all (None), the not_supported value is assigned but the
logging tail of categories crashes before returning (see the
counterexample). -/
theorem C4_thm (f : String) (env : Env) (d : String)
    (hs : seasonSearch f = none) (hsp : specialsFound f = false)
    (he : episodeSearch f = none)
    (hd : d ∈ env.collectionsListing)
    (heq : (collNormFile f == collNormDir d) = true)
    (hserv : env.service ≠ none) :
    (categories f env).1 =
      some (if env.service == some "kometa" || env.service == some "kodi"
            then "collection" else "not_supported") ∧
    (categoriesRun f env).2.2 = none := by
  obtain ⟨b, hb⟩ :=
    find_some_aux (fun x => collNormFile f == collNormDir x) env.collectionsListing d hd heq
  obtain ⟨sv, hsv⟩ := Option.ne_none_iff_exists'.mp hserv
  have hnone : (env.service == (none : Option String)) = false := by
    rw [hsv]; rfl
  by_cases hc : (env.service == some "kometa" || env.service == some "kodi") = true
  · have hfull : categories f env = (some "collection", none, none) := by
      simp [categories, hs, hsp, he, fallbackOutcome, hb, hc]
    refine ⟨?_, ?_⟩
    · rw [hfull]; simp [hc]
    · simp [categoriesRun, hfull, validCat]
  · simp only [Bool.not_eq_true] at hc
    have hfull : categories f env = (some "not_supported", none, none) := by
      simp [categories, hs, hsp, he, fallbackOutcome, hb, hc]
    refine ⟨?_, ?_⟩
    · rw [hfull]; simp [hc]
    · simp [categoriesRun, hfull, validCat, hnone]

/-- Collections snapshot with no configured service. -/
def envC4none : Env := { baseEnv with collectionsListing := ["Marvel"] }

/-- C4 counterexample: with no service configured (None), a collection
match assigns not_supported, but the logging tail of categories
dereferences service.capitalize() on None: the classification never
returns not_supported to the caller — the file has already been moved to
failed, and the run crashes with an uncaught AttributeError. -/
theorem C4_cex :
    (categories "Marvel Collection.jpg" envC4none).1 = some "not_supported" ∧
    categoriesRun "Marvel Collection.jpg" envC4none =
      ((some "not_supported", none, none), [FsOp.mvFailed "Marvel Collection.jpg"],
        some "AttributeError: NoneType has no attribute capitalize") ∧
    processFile "Marvel Collection.jpg" envC4none false =
      (.crashed "AttributeError: NoneType has no attribute capitalize",
       [FsOp.mvFailed "Marvel Collection.jpg"]) := by decide

/-- C4 witness: Marvel Collection.jpg matches a folder named Marvel and a
folder named Marvel Collection; category collection under kometa,
not_supported under plex with the tail returning normally. -/
theorem C4_witness :
    (categories "Marvel Collection.jpg"
      { baseEnv with service := some "kometa", collectionsListing := ["Marvel"] }).1 =
        some "collection" ∧
    (categories "Marvel Collection.jpg"
      { baseEnv with service := some "kometa", collectionsListing := ["Marvel Collection"] }).1 =
        some "collection" ∧
    (categories "Marvel Collection.jpg"
      { baseEnv with service := some "plex", collectionsListing := ["Marvel"] }).1 =
        some "not_supported" ∧
    (categoriesRun "Marvel Collection.jpg"
      { baseEnv with service := some "plex", collectionsListing := ["Marvel"] }).2.2 = none :=
  ⟨((C4_thm _ _ "Marvel" (by decide) (by decide) (by decide) (by decide) (by decide)
      (by decide)).1).trans (by decide),
   ((C4_thm _ _ "Marvel Collection" (by decide) (by decide) (by decide) (by decide)
      (by decide) (by decide)).1).trans (by decide),
   ((C4_thm _ _ "Marvel" (by decide) (by decide) (by decide) (by decide) (by decide)
      (by decide)).1).trans (by decide),
   (C4_thm _ _ "Marvel" (by decide) (by decide) (by decide) (by decide) (by decide)
      (by decide)).2⟩

/-- C3: classification precedence is the if/elif chain season pattern,
then specials, then episode, then the collection/movie/show fallback: the
first matching rule's branch alone determines the result, the branches of
later rules never being consulted. -/
theorem C3_thm (f : String) (env : Env) :
    (seasonSearch f ≠ none →
      categories f env = seasonOutcome (seasonSearch f) (titleYear f) env) ∧
    (seasonSearch f = none → specialsFound f = true →
      categories f env = specialsOutcome (titleYear f) env) ∧
    (seasonSearch f = none → specialsFound f = false → episodeSearch f ≠ none →
      categories f env = episodeOutcome (episodeSearch f) (titleYear f) env) ∧
    (seasonSearch f = none → specialsFound f = false → episodeSearch f = none →
      categories f env = fallbackOutcome f env) := by
  refine ⟨fun h => ?_, fun h1 h2 => ?_, fun h1 h2 h3 => ?_, fun h1 h2 h3 => ?_⟩
  · obtain ⟨v, hv⟩ := Option.ne_none_iff_exists'.mp h
    simp [categories, hv]
  · simp [categories, h1, h2]
  · obtain ⟨v, hv⟩ := Option.ne_none_iff_exists'.mp h3
    simp [categories, h1, h2, hv]
  · simp [categories, h1, h2, h3]

/-- C3 witness: a filename matching the season, specials and episode
patterns at once is decided by the season branch alone. -/
theorem C3_witness :
    specialsFound "Specials Season 2 S01E02.jpg" = true ∧
    episodeSearch "Specials Season 2 S01E02.jpg" = some ("01", "02") ∧
    categories "Specials Season 2 S01E02.jpg" { baseEnv with service := some "kometa" } =
      seasonOutcome (seasonSearch "Specials Season 2 S01E02.jpg")
        (titleYear "Specials Season 2 S01E02.jpg")
        { baseEnv with service := some "kometa" } :=
  ⟨by decide, by decide, (C3_thm _ _).1 (by decide)⟩

/-- A string of length at least two is unchanged by zfill2. -/
theorem zfill2_of_long (t : String) (h : ¬ t.data.length < 2) : zfill2 t = t := by
  unfold zfill2
  rw [if_neg h]

/-- The result of zfill2 always has length at least two. -/
theorem zfill2_len_ge (s : String) : ¬ (zfill2 s).data.length < 2 := by
  unfold zfill2
  by_cases h : s.data.length < 2
  · rw [if_pos h]
    show ¬ (List.replicate (2 - s.data.length) '0' ++ s.data).length < 2
    rw [List.length_append, List.length_replicate]
    omega
  · rw [if_neg h]
    omega

/-- The source zero-pads the plex episode season number twice; the second
application is the identity. -/
theorem zfill2_idem (s : String) : zfill2 (zfill2 s) = zfill2 s :=
  zfill2_of_long _ (zfill2_len_ge s)

/-- C7: under the plex convention, a season poster whose (nonempty) season
number names a season folder that does not exist gets that folder created
before the copy and rename; an episode card whose season folder does not
exist is moved to the failed area with no folder creation and no copy. -/
theorem C7_thm (f1 f2 sn s2 e2 : String) (env : Env) (d b2 : String) :
    (seasonShowFind f1 env.showsListing = some d → sn.data.isEmpty = false →
      env.seasonExists d ("Season " ++ zfill2 sn) = false →
      plexSeasonPlace f1 (some sn) env =
        (.ret "season",
         [.mkdir (pjoin (pjoin env.showsDir d) ("Season " ++ zfill2 sn)),
          .copy (pjoin env.processDir f1)
            (pjoin (pjoin (pjoin env.showsDir d) ("Season " ++ zfill2 sn)) f1),
          .rename (pjoin (pjoin (pjoin env.showsDir d) ("Season " ++ zfill2 sn)) f1)
            (pjoin (pjoin (pjoin env.showsDir d) ("Season " ++ zfill2 sn))
              ("Season" ++ zfill2 sn ++ extOf f1))])) ∧
    (plexEpisodeShowMatch f2 env.showsListing = some b2 →
      episodeLast f2 = some (s2, e2) →
      (zfill2 s2 == "00") = false →
      env.seasonExists b2 ("Season " ++ zfill2 s2) = false →
      plexEpisodePlace f2 env = (.ret "failed", [.mvFailed f2])) := by
  constructor
  · intro h1 h2 h3
    simp [plexSeasonPlace, h1, h2, plexSeasonFinish, h3]
  · intro h1 h2 h3 h4
    simp [plexEpisodePlace, h1, h2, h3, plexEpisodeFinish, zfill2_idem, h4]

/-- Plex snapshot with one show directory, used by the concrete plex
scenarios. -/
def envPlexBB : Env := { baseEnv with
  service := some "plex", plexSpecials := some true,
  showsListing := ["Breaking Bad (2008)"] }

/-- C7 witness: a season-3 poster creates shows/Breaking Bad
(2008)/Season 03; an S01E01 card with no existing season folder is moved
to failed and no mkdir happens. -/
theorem C7_witness :
    plexSeasonPlace "Breaking Bad (2008) - Season 3.jpg" (some "3") envPlexBB =
      (.ret "season",
       [.mkdir (pjoin (pjoin "shows" "Breaking Bad (2008)") ("Season " ++ zfill2 "3")),
        .copy (pjoin "process" "Breaking Bad (2008) - Season 3.jpg")
          (pjoin (pjoin (pjoin "shows" "Breaking Bad (2008)") ("Season " ++ zfill2 "3"))
            "Breaking Bad (2008) - Season 3.jpg"),
        .rename
          (pjoin (pjoin (pjoin "shows" "Breaking Bad (2008)") ("Season " ++ zfill2 "3"))
            "Breaking Bad (2008) - Season 3.jpg")
          (pjoin (pjoin (pjoin "shows" "Breaking Bad (2008)") ("Season " ++ zfill2 "3"))
            ("Season" ++ zfill2 "3" ++ extOf "Breaking Bad (2008) - Season 3.jpg"))]) ∧
    plexEpisodePlace "Breaking Bad S01E01.jpg" envPlexBB =
      (.ret "failed", [.mvFailed "Breaking Bad S01E01.jpg"]) :=
  ⟨(C7_thm "Breaking Bad (2008) - Season 3.jpg" "x" "3" "" "" _ "Breaking Bad (2008)" "").1
      (by decide) (by decide) (by decide),
   (C7_thm "x" "Breaking Bad S01E01.jpg" "" "01" "01" _ "" "Breaking Bad (2008)").2
      (by decide) (by decide) (by decide) (by decide)⟩

/-- C9: a file classified season with no season number by the
case-insensitive specials pattern, whose filename does not contain the
case-sensitive substring Specials, and whose show folder is matched,
makes the plex season placement raise an uncaught UnboundLocalError (the
season directory name is never assigned before use) instead of placing
the file or routing it to failed — for every value of plex_specials. -/
theorem C9_thm (f : String) (env : Env) (d : String)
    (hserv : env.service = some "plex")
    (hsp : specialsFound f = true)
    (hseason : seasonSearch f = none)
    (hdir : seasonShowFind f env.showsListing = some d)
    (hnos : substr "Specials" f = false) :
    copy_and_rename f "season" none none env =
      (.crash "UnboundLocalError: season_dir_name", []) := by
  simp [copy_and_rename, hserv, plexSeasonPlace, hdir, plexSeasonSpecials, hnos]

/-- C9 witness: an upper-cased SPECIALS poster with the show folder
present and plex_specials explicitly set still crashes. -/
theorem C9_witness :
    copy_and_rename "Breaking Bad (2008) - SPECIALS.jpg" "season" none none envPlexBB =
      (.crash "UnboundLocalError: season_dir_name", []) :=
  C9_thm "Breaking Bad (2008) - SPECIALS.jpg" _ "Breaking Bad (2008)"
    (by decide) (by decide) (by decide) (by decide) (by decide)

/-- Plex snapshot with plex_specials unset. -/
def envPlex8 : Env := { baseEnv with
  service := some "plex", plexSpecials := none,
  showsListing := ["Breaking Bad (2008)"] }

/-- C8 (amended): under the plex convention with plex_specials unset, a
specials season poster whose filename contains the case-sensitive
substring Specials, or a season-00 episode card, halts the whole run at
once with exit code 1 at placement time — a fatal configuration exit,
with no filesystem operation performed and no further file of the
snapshot processed. -/
theorem C8_thm (env : Env) (bk : Bool) (f1 f2 : String) (rest : List String) :
    (env.service = some "plex" → env.plexSpecials = none →
      categories f1 env = (some "season", none, none) →
      seasonShowFind f1 env.showsListing ≠ none →
      substr "Specials" f1 = true →
      runFiles env bk (f1 :: rest) = (.fatal 1, [])) ∧
    (env.service = some "plex" → env.plexSpecials = none →
      (categories f2 env).1 = some "episode" →
      plexEpisodeShowMatch f2 env.showsListing ≠ none →
      (∃ s e, episodeLast f2 = some (s, e) ∧ zfill2 s = "00") →
      runFiles env bk (f2 :: rest) = (.fatal 1, [])) := by
  constructor
  · intro hserv hps hcat hdir hspec
    obtain ⟨d, hd⟩ := Option.ne_none_iff_exists'.mp hdir
    have hstep : processFile f1 env bk = (.fatal 1, []) := by
      simp [processFile, categoriesRun, hcat, validCat, copy_and_rename, hserv,
        plexSeasonPlace, hd, plexSeasonSpecials, hspec, hps]
    simp [runFiles, hstep]
  · intro hserv hps hcat1 hdir hep
    obtain ⟨b2, hb2⟩ := Option.ne_none_iff_exists'.mp hdir
    obtain ⟨s, e, hse, hz⟩ := hep
    rcases hc : categories f2 env with ⟨c, sn, en⟩
    rw [hc] at hcat1
    simp at hcat1
    have hstep : processFile f2 env bk = (.fatal 1, []) := by
      simp [processFile, categoriesRun, hc, hcat1, validCat, copy_and_rename, hserv,
        plexEpisodePlace, hb2, hse, hz, hps]
    simp [runFiles, hstep]

/-- C8 counterexample: a specials season poster written with a lower-case
"specials" reaches plex placement with plex_specials unset, yet the run
does not take the fatal configuration exit: the placement raises an
uncaught UnboundLocalError instead. -/
theorem C8_cex :
    categories "Breaking Bad (2008) specials.jpg" envPlex8 = (some "season", none, none) ∧
    copy_and_rename "Breaking Bad (2008) specials.jpg" "season" none none envPlex8 =
      (.crash "UnboundLocalError: season_dir_name", []) ∧
    (CrResult.crash "UnboundLocalError: season_dir_name" ≠ CrResult.fatalExit 1) := by decide

/-- C8 witness: a Specials poster and an S00E01 card, each followed by
another pending file, halt the run at once with exit code 1. -/
theorem C8_witness :
    runFiles envPlex8 false ["Breaking Bad (2008) - Specials.jpg", "Other.jpg"] =
      (.fatal 1, []) ∧
    runFiles envPlex8 false ["Breaking Bad S00E01.jpg", "Other.jpg"] = (.fatal 1, []) :=
  ⟨(C8_thm envPlex8 false "Breaking Bad (2008) - Specials.jpg" "x" ["Other.jpg"]).1
      (by decide) (by decide) (by decide) (by decide) (by decide),
   (C8_thm envPlex8 false "x" "Breaking Bad S00E01.jpg" ["Other.jpg"]).2
      (by decide) (by decide) (by decide) (by decide) ⟨"00", "01", by decide, by decide⟩⟩

/-- Kometa snapshot whose shows listing does not match the season poster
below. -/
def envKometa1 : Env := { baseEnv with
  service := some "kometa", showsListing := ["Other Show (2020)"] }

/-- C1: evaluation at the failing input.  The season poster Season 2.jpg
is classified season under kometa, the kometa season branch of
copy_and_rename finds no matching show directory and falls through
without copying the file anywhere and without moving it to failed, yet it
returns the category, so the main loop deletes the file from the staging
directory: the only filesystem operation of the whole run is the staging
delete — the file is removed without ever having been placed, and the
failed area is never used. -/
theorem C1_thm :
    categories "Season 2.jpg" envKometa1 = (some "season", some "2", none) ∧
    copy_and_rename "Season 2.jpg" "season" (some "2") none envKometa1 =
      (.ret "season", []) ∧
    runFiles envKometa1 false ["Season 2.jpg"] = (.ok, [FsOp.remove "Season 2.jpg"]) := by
  decide

/-- Kometa snapshot with a matching movie directory and a portrait image. -/
def envMovie2 : Env := { baseEnv with
  service := some "kometa", moviesListing := ["Inception (2010)"],
  imgSize := fun _ => (1000, 1500) }

/-- C2: evaluation at the failing input.  A portrait movie poster matched
to its library folder is copied under its original filename and the
emitted operations contain no rename at all — the movie/show branch of
copy_and_rename ends before the portrait poster/background renaming that
the collection branch performs (the source's movie/show rename code is
truncated at a trailing comment). -/
theorem C2_thm :
    envMovie2.imgSize
        (pjoin (pjoin "movies" "Inception (2010)") "Inception (2010).jpg") = (1000, 1500) ∧
    copy_and_rename "Inception (2010).jpg" "movie" none none envMovie2 =
      (.ret "movie",
       [FsOp.copy (pjoin "process" "Inception (2010).jpg")
          (pjoin (pjoin "movies" "Inception (2010)") "Inception (2010).jpg")]) := by
  decide

/-- C10: every call of move_to_failed increments the failed tally by
exactly one, whatever the outcome of the underlying filesystem move (ok,
not-found, permission denied, or any other error), and every such error
is caught inside: the call always returns normally to its caller. -/
theorem C10_thm (filename : String) (counts : MovedCounts) (mv : Except MvErr Unit) :
    (move_to_failed filename counts mv).1.failed = counts.failed + 1 ∧
    (move_to_failed filename counts mv).2 = Except.ok () := by
  cases mv with
  | ok u => cases u; exact ⟨rfl, rfl⟩
  | error err => cases err <;> exact ⟨rfl, rfl⟩
